import Mathlib

/-!
Verification of the reply-synthesis component (`scripts/llm_bridge.py`) of
OpenMCP-Chain: a shallow embedding of the script's data flow and synthesis
logic, followed by theorems settling the specification's claims.

Modelling conventions:
* JSON values are embedded as the inductive `JVal`; JSON numbers are modelled
  as `Int` (the script only ever applies `int(...)` to a numeric `created_at`,
  which truncates a float toward zero, so integer-valued timestamps capture
  the behaviour under scrutiny).
* Python `str` is modelled as Lean `String` (both sequences of Unicode code
  points, so Python `len` agrees with `String.length`). Python's slicing
  `s[:n]` is modelled by `pyTake` (the first `n` code points) and `.strip()`
  by `pyStrip` (dropping Python's whitespace code points from both ends),
  both defined below by structural recursion over the code points.
* The current wall-clock time (`datetime.utcnow()`) is injected as an epoch
  second count, making `build_reply` a pure function as the spec requires.
* `datetime.utcfromtimestamp(n).strftime("%Y-%m-%d %H:%M:%S UTC")` is
  embedded via the standard civil-from-days calendar algorithm over `Int`
  (proleptic Gregorian), which agrees with CPython on its supported range.
-/

namespace LlmBridge

/-- A decoded JSON value, as produced by Python's `json.load`. `null` also
stands for Python `None` (absent optional values). -/
inductive JVal where
  | null : JVal
  | bool : Bool → JVal
  | num : Int → JVal
  | str : String → JVal
  | arr : List JVal → JVal
  | obj : List (String × JVal) → JVal

/-- A decoded JSON object (Python `dict` with string keys, as `json.load`
produces). -/
abbrev JObj := List (String × JVal)

/-- Python truthiness of a decoded JSON value: `None`, `False`, `0`, `""`,
`[]`, `{}` are falsy, everything else truthy. -/
def pyFalsy : JVal → Bool
  | .null => true
  | .bool b => !b
  | .num n => n == 0
  | .str s => s.isEmpty
  | .arr xs => xs.isEmpty
  | .obj fs => fs.isEmpty

mutual

/-- Python `repr` of a decoded JSON value (strings quoted with `'`; the
quote-switching CPython performs when a string itself contains `'` is not
reproduced, as no claim touches it). -/
def pyRepr : JVal → String
  | .null => "None"
  | .bool b => if b then "True" else "False"
  | .num n => toString n
  | .str s => "\x27" ++ s ++ "\x27"
  | .arr xs => "[" ++ String.intercalate ", " (pyReprList xs) ++ "]"
  | .obj fs => "\x7b" ++ String.intercalate ", " (pyReprFields fs) ++ "\x7d"

/-- Python `repr` of each element of a JSON array. -/
def pyReprList : List JVal → List String
  | [] => []
  | v :: vs => pyRepr v :: pyReprList vs

/-- Python `repr` of each `key: value` entry of a JSON object. -/
def pyReprFields : List (String × JVal) → List String
  | [] => []
  | (k, v) :: fs => ("\x27" ++ k ++ "\x27: " ++ pyRepr v) :: pyReprFields fs

end

/-- Python `isinstance(v, dict)` for a decoded JSON value. -/
def isDict : JVal → Bool
  | .obj _ => true
  | _ => false

/-- Python `str(v)` for a decoded JSON value `v`. -/
def pyStr : JVal → String
  | .null => "None"
  | .bool b => if b then "True" else "False"
  | .num n => toString n
  | .str s => s
  | .arr xs => pyRepr (.arr xs)
  | .obj fs => pyRepr (.obj fs)

/-- Python `d.get(k, default)` on a decoded JSON object: the stored value if
the key is present (`null` models a stored `None`), the default otherwise. -/
def jGetD (fields : JObj) (k : String) (d : JVal) : JVal :=
  match fields with
  | [] => d
  | (key, v) :: rest => if key = k then v else jGetD rest k d

/-- Python `a or b` for strings: `b` when `a` is empty, else `a`. -/
def pyOrS (a b : String) : String :=
  if a = "" then b else a

/-- The code points Python's `str.strip()` removes (the characters `c` with
`c.isspace()` true: ASCII whitespace, the C1 separators, NEL, NBSP, and the
Unicode space/separator code points). -/
def pyWS (c : Char) : Bool :=
  c.val ∈ ([0x09, 0x0A, 0x0B, 0x0C, 0x0D, 0x1C, 0x1D, 0x1E, 0x1F, 0x20,
    0x85, 0xA0, 0x1680, 0x2000, 0x2001, 0x2002, 0x2003, 0x2004, 0x2005,
    0x2006, 0x2007, 0x2008, 0x2009, 0x200A, 0x2028, 0x2029, 0x202F,
    0x205F, 0x3000] : List UInt32)

/-- Python `s.strip()`: remove leading and trailing whitespace code points. -/
def pyStrip (s : String) : String :=
  ⟨((s.data.dropWhile pyWS).reverse.dropWhile pyWS).reverse⟩

/-- Python `s[:n]`: the first `n` code points of `s`. -/
def pyTake (s : String) (n : Nat) : String :=
  ⟨s.data.take n⟩

/-- Left-pad a natural number with zeros to two digits (`strftime` `%m`,
`%d`, `%H`, `%M`, `%S`). -/
def pad2 (n : Nat) : String :=
  if n < 10 then "0" ++ toString n else toString n

/-- Left-pad a natural number with zeros to four digits. -/
def pad4Nat (n : Nat) : String :=
  let s := toString n
  if s.length ≥ 4 then s else String.mk (List.replicate (4 - s.length) '0') ++ s

/-- Format `strftime` `%Y`: the year, zero-padded to four digits. (CPython restricts
`datetime` to years 1..9999; the embedding is total and extends the format to
out-of-range integers, which no claim exercises.) -/
def pad4 (y : Int) : String :=
  if y < 0 then "-" ++ pad4Nat (-y).toNat else pad4Nat y.toNat

/-- Convert a count of days since 1970-01-01 to a proleptic-Gregorian civil
date (year, month, day) — the calendar arithmetic underlying
`datetime.utcfromtimestamp`. -/
def civilFromDays (z0 : Int) : Int × Nat × Nat :=
  let z := z0 + 719468
  let era := Int.fdiv z 146097
  let doe := (z - era * 146097).toNat
  let yoe := (doe - doe / 1460 + doe / 36524 - doe / 146096) / 365
  let y : Int := (yoe : Int) + era * 400
  let doy := doe - (365 * yoe + yoe / 4 - yoe / 100)
  let mp := (5 * doy + 2) / 153
  let d := doy - (153 * mp + 2) / 5 + 1
  let m := if mp < 10 then mp + 3 else mp - 9
  (if m ≤ 2 then y + 1 else y, m, d)

/-- Model of `datetime.utcfromtimestamp(n).strftime("%Y-%m-%d %H:%M:%S UTC")`: format
an epoch second count as a UTC timestamp string. -/
def epochFormat (n : Int) : String :=
  let days := Int.fdiv n 86400
  let sod := (n - days * 86400).toNat
  let c := civilFromDays days
  pad4 c.1 ++ "-" ++ pad2 c.2.1 ++ "-" ++ pad2 c.2.2 ++ " " ++
    pad2 (sod / 3600) ++ ":" ++ pad2 (sod % 3600 / 60) ++ ":" ++
    pad2 (sod % 60) ++ " UTC"

/-- The timestamp shown for a history record, from its `created_at` value
(`null` also models an absent key, since `dict.get` returns `None` for both):
`isinstance(created_at, (int, float))` → epoch-formatted (Python `bool` is a
subclass of `int`, so booleans take this branch as `int(True) = 1`,
`int(False) = 0`); otherwise `str(created_at or "未知时间")`. -/
def tsOf (createdAt : JVal) : String :=
  match createdAt with
  | .num n => epochFormat n
  | .bool b => epochFormat (if b then 1 else 0)
  | v => if pyFalsy v then "未知时间" else pyStr v

/-- Truncation of a history summary: strings longer than 60 characters are
cut to their first 57 characters with `"..."` appended. -/
def truncateSummary (s : String) : String :=
  if s.length > 60 then pyTake s 57 ++ "..." else s

/-- Truncation of a knowledge entry's content: strings longer than 80
characters are cut to their first 77 characters with `"..."` appended. -/
def truncateContent (s : String) : String :=
  if s.length > 80 then pyTake s 77 ++ "..." else s

/-- One line of the thought's history section, for the record at (1-based)
position `idx`. -/
def historyLine (idx : Nat) (item : JObj) : String :=
  let goal := pyStr (jGetD item "goal" (.str "未知目标"))
  let reply := pyStr (jGetD item "reply" (.str ""))
  let observations := pyStr (jGetD item "observations" (.str ""))
  let ts := tsOf (jGetD item "created_at" .null)
  let summary := truncateSummary (pyOrS reply observations)
  "- [" ++ toString idx ++ "] " ++ ts ++ " 目标: " ++ goal ++ " | 结果: " ++
    pyOrS summary "无摘要"

/-- The loop of `_format_history_lines`: one line per record, breaking after
the record at position 3. -/
def historyGo (idx : Nat) : List JObj → List String
  | [] => []
  | item :: rest =>
      historyLine idx item :: (if idx ≥ 3 then [] else historyGo (idx + 1) rest)

/-- Model of `_format_history_lines`: header line followed by at most three record
lines. -/
def formatHistoryLines (history : List JObj) : List String :=
  "历史参考任务：" :: historyGo 1 history

/-- One line of the thought's knowledge section, for the entry at (1-based)
position `idx`. -/
def knowledgeLine (idx : Nat) (item : JObj) : String :=
  let title := pyOrS (pyStr (jGetD item "title" (.str "知识点"))) "知识点"
  let content := truncateContent (pyStr (jGetD item "content" (.str "")))
  "- [" ++ toString idx ++ "] " ++ title ++ ": " ++ pyOrS content "暂无详细内容"

/-- The loop of `_format_knowledge_lines`: one line per entry, breaking after
the entry at position 3. -/
def knowledgeGo (idx : Nat) : List JObj → List String
  | [] => []
  | item :: rest =>
      knowledgeLine idx item :: (if idx ≥ 3 then [] else knowledgeGo (idx + 1) rest)

/-- Model of `_format_knowledge_lines`: header line followed by at most three entry
lines. -/
def formatKnowledgeLines (knowledge : List JObj) : List String :=
  "知识库参考：" :: knowledgeGo 1 knowledge

/-- The base sentence of the reply: acknowledge the goal, name the next
step (the action or its placeholder), and remind about the (possibly
to-be-determined) address. -/
def replyBase (goal action address : String) : String :=
  "我已经理解你的目标『" ++ goal ++ "』。下一步可以按照『" ++
    pyOrS action "补充链上操作" ++ "』在链上执行，并保持地址 " ++
    pyOrS address "待定" ++ " 的安全。"

/-- The sentence `build_reply` appends to the reply when `history` is
non-empty: it references the first record's trimmed `goal`, falling back to a
generic recent-task-experience phrase when that goal is empty. Appending `""`
models the skipped `if history:` branch. -/
def histClause (history : List JObj) : String :=
  match history with
  | [] => ""
  | h0 :: _ =>
      let latestGoal := pyStrip (pyStr (jGetD h0 "goal" (.str "近期任务")))
      if latestGoal = "" then " 我也结合了最近的任务经验，帮助你更快迭代。"
      else " 同时我参考了历史任务『" ++ latestGoal ++ "』的经验，以保证策略保持一致。"

/-- The sentence `build_reply` appends to the reply when `knowledge` is
non-empty: it references the first entry's trimmed `title`, falling back to a
generic knowledge-base phrase when that title is empty. -/
def knowClause (knowledge : List JObj) : String :=
  match knowledge with
  | [] => ""
  | k0 :: _ =>
      let keyTitle := pyStrip (pyStr (jGetD k0 "title" (.str "知识库建议")))
      if keyTitle = "" then " 我也参考了知识库中的相关条目，以提升方案可靠性。"
      else " 我额外查阅了知识库中的『" ++ keyTitle ++ "』，为你的下一步提供理论依据。"

/-- Model of `build_reply`: synthesize the (thought, reply) pair. `now` is the current
wall-clock time as epoch seconds (`datetime.utcnow()`), injected so the
function is pure. -/
def buildReply (goal action address : String) (history knowledge : List JObj)
    (now : Int) : String × String :=
  let nowS := epochFormat now
  let baseLines :=
    ["当前目标: " ++ goal,
     "预期链上操作: " ++ pyOrS action "未指定",
     "涉及地址: " ++ pyOrS address "未指定",
     "时间戳: " ++ nowS]
  let lines1 := baseLines ++ (if history.isEmpty then [] else formatHistoryLines history)
  let lines2 := lines1 ++ (if knowledge.isEmpty then [] else formatKnowledgeLines knowledge)
  let thought := String.intercalate "\n" lines2
  let reply0 := replyBase goal action address
  let reply1 := reply0 ++ histClause history
  let reply2 := reply1 ++ knowClause knowledge
  (thought, reply2)

/-- The normalization `main` applies to the `history`/`knowledge` payload
fields: a non-list value becomes `[]`, and non-dict elements of a list are
dropped. -/
def normalizeJList (v : JVal) : List JObj :=
  match v with
  | .arr xs => xs.filterMap (fun x => match x with | .obj fs => some fs | _ => none)
  | _ => []

/-- The outcome of one run of the script: an `{"error": ...}` response or a
`{"thought": ..., "reply": ...}` result. -/
inductive BridgeOut where
  | error : String → BridgeOut
  | result : String → String → BridgeOut
deriving DecidableEq

/-- The body of `main` after `json.load` produced a JSON object: extract and
trim the scalar fields, reject an empty goal, normalize `history` and
`knowledge`, and synthesize. -/
def mainObj (fields : JObj) (now : Int) : BridgeOut :=
  let goal := pyStrip (pyStr (jGetD fields "goal" (.str "")))
  let action := pyStrip (pyStr (jGetD fields "chain_action" (.str "")))
  let address := pyStrip (pyStr (jGetD fields "address" (.str "")))
  if goal = "" then .error "goal 字段不能为空"
  else
    let history := normalizeJList (jGetD fields "history" .null)
    let knowledge := normalizeJList (jGetD fields "knowledge" .null)
    let tr := buildReply goal action address history knowledge now
    .result tr.1 tr.2

/-- Model of `main`: the input is either a `json.load` failure (carrying the decode
error's message) or a decoded JSON value. A decode failure is answered with
an error response; a decoded object is processed by `mainObj`; a decoded
non-object makes `payload.get` raise an uncaught `AttributeError`, so the
process crashes producing no response at all (`none`). -/
def mainBridge (input : Except String JVal) (now : Int) : Option BridgeOut :=
  match input with
  | .error e => some (.error ("输入不是有效的 JSON: " ++ e))
  | .ok (.obj fields) => some (mainObj fields now)
  | .ok _ => none

/-- Unfolding of `mainObj` on a non-empty trimmed goal. -/
theorem mainObj_result (fields : JObj) (now : Int)
    (h : pyStrip (pyStr (jGetD fields "goal" (.str ""))) ≠ "") :
    mainObj fields now =
      .result
        (buildReply (pyStrip (pyStr (jGetD fields "goal" (.str ""))))
          (pyStrip (pyStr (jGetD fields "chain_action" (.str ""))))
          (pyStrip (pyStr (jGetD fields "address" (.str ""))))
          (normalizeJList (jGetD fields "history" .null))
          (normalizeJList (jGetD fields "knowledge" .null)) now).1
        (buildReply (pyStrip (pyStr (jGetD fields "goal" (.str ""))))
          (pyStrip (pyStr (jGetD fields "chain_action" (.str ""))))
          (pyStrip (pyStr (jGetD fields "address" (.str ""))))
          (normalizeJList (jGetD fields "history" .null))
          (normalizeJList (jGetD fields "knowledge" .null)) now).2 := by
  simp only [mainObj, if_neg h]

/-- C1: a request whose `goal` is empty after trimming is answered with an
error response and never a Result; a request whose `goal` is non-empty after
trimming is never answered with an error, whatever the other fields hold. -/
theorem c1_empty_goal_law (fields : JObj) (now : Int) :
    (pyStrip (pyStr (jGetD fields "goal" (.str ""))) = "" →
      mainObj fields now = .error "goal 字段不能为空") ∧
    (pyStrip (pyStr (jGetD fields "goal" (.str ""))) ≠ "" →
      ∃ t r, mainObj fields now = .result t r) := by
  constructor
  · intro h
    simp only [mainObj, if_pos h]
  · intro h
    exact ⟨_, _, mainObj_result fields now h⟩

/-- C2: on a request with a non-empty (trimmed) goal and no action, address,
history, or knowledge, the thought is exactly the four newline-separated
lines goal / action placeholder / address placeholder / current timestamp,
and the reply contains the goal verbatim together with the unspecified-action
placeholder `补充链上操作` and the to-be-determined address placeholder
`待定`. -/
theorem c2_minimal_request (g : String) (now : Int) (h : pyStrip g ≠ "") :
    mainBridge (.ok (.obj [("goal", JVal.str g)])) now =
      some (.result
        (String.intercalate "\n"
          ["当前目标: " ++ pyStrip g, "预期链上操作: 未指定", "涉及地址: 未指定",
           "时间戳: " ++ epochFormat now])
        ("我已经理解你的目标『" ++ pyStrip g ++
          "』。下一步可以按照『补充链上操作』在链上执行，并保持地址 待定 的安全。")) := by
  have h' : pyStrip (pyStr (jGetD [("goal", JVal.str g)] "goal" (.str ""))) ≠ "" := h
  show some (mainObj [("goal", JVal.str g)] now) = _
  rw [mainObj_result _ _ h']
  simp only [buildReply, replyBase, histClause, knowClause, String.append_empty,
    String.append_assoc]
  rfl

/-- Witness for C2: the minimal request with goal `" check balance "`. -/
theorem c2_minimal_request_witness :
    mainBridge (.ok (.obj [("goal", JVal.str " check balance ")])) 0 =
      some (.result
        (String.intercalate "\n"
          ["当前目标: " ++ pyStrip " check balance ", "预期链上操作: 未指定",
           "涉及地址: 未指定", "时间戳: " ++ epochFormat 0])
        ("我已经理解你的目标『" ++ pyStrip " check balance " ++
          "』。下一步可以按照『补充链上操作』在链上执行，并保持地址 待定 的安全。")) :=
  c2_minimal_request " check balance " 0 (by decide)

/-- Witness for C1: the all-whitespace goal `"   "` errors, while the goal
`"hi"` (with arbitrary extra fields present) yields a Result. -/
theorem c1_empty_goal_law_witness :
    mainObj [("goal", JVal.str "   ")] 0 = .error "goal 字段不能为空" ∧
    ∃ t r, mainObj [("goal", JVal.str "hi"), ("history", JVal.num 5)] 0 =
      .result t r := by
  constructor
  · exact (c1_empty_goal_law [("goal", JVal.str "   ")] 0).1 (by decide)
  · exact (c1_empty_goal_law [("goal", JVal.str "hi"), ("history", JVal.num 5)] 0).2
      (by decide)

/-- The length of `pyTake`: the first `n` code points of `s`. -/
theorem length_pyTake (s : String) (n : Nat) :
    (pyTake s n).length = min n s.length := by
  show (s.data.take n).length = min n s.data.length
  exact List.length_take ..

/-- C3: a history summary longer than 60 characters is rendered ending in the
truncation marker `"..."` with total length at most 60 + 3, and one of at
most 60 characters is rendered unchanged; a knowledge content behaves
analogously at 80. -/
theorem c3_truncation_law (s : String) :
    (60 < s.length →
      (∃ p, truncateSummary s = p ++ "...") ∧ (truncateSummary s).length ≤ 60 + 3) ∧
    (s.length ≤ 60 → truncateSummary s = s) ∧
    (80 < s.length →
      (∃ p, truncateContent s = p ++ "...") ∧ (truncateContent s).length ≤ 80 + 3) ∧
    (s.length ≤ 80 → truncateContent s = s) := by
  refine ⟨fun h => ⟨⟨pyTake s 57, ?_⟩, ?_⟩, fun h => ?_,
    fun h => ⟨⟨pyTake s 77, ?_⟩, ?_⟩, fun h => ?_⟩
  · simp only [truncateSummary, if_pos h]
  · simp only [truncateSummary, if_pos h, String.length_append, length_pyTake]
    have : ("..." : String).length = 3 := rfl
    omega
  · simp only [truncateSummary]
    rw [if_neg (by omega)]
  · simp only [truncateContent, if_pos h]
  · simp only [truncateContent, if_pos h, String.length_append, length_pyTake]
    have : ("..." : String).length = 3 := rfl
    omega
  · simp only [truncateContent]
    rw [if_neg (by omega)]

/-- Witness for C3: a 61-character summary is truncated to marker form within
the bound, a 16-character one is unchanged; an 81-character content is
truncated to marker form within the bound, a 16-character one is unchanged. -/
theorem c3_truncation_law_witness :
    ((∃ p, truncateSummary "aaaaaaaaaaaaaaaaaaaaaaaaaaaaaaaaaaaaaaaaaaaaaaaaaaaaaaaaaaaaa"
        = p ++ "...") ∧
      (truncateSummary "aaaaaaaaaaaaaaaaaaaaaaaaaaaaaaaaaaaaaaaaaaaaaaaaaaaaaaaaaaaaa").length
        ≤ 60 + 3) ∧
    truncateSummary "balance is 5 ETH" = "balance is 5 ETH" ∧
    ((∃ p, truncateContent "bbbbbbbbbbbbbbbbbbbbbbbbbbbbbbbbbbbbbbbbbbbbbbbbbbbbbbbbbbbbbbbbbbbbbbbbbbbbbbbbb"
        = p ++ "...") ∧
      (truncateContent "bbbbbbbbbbbbbbbbbbbbbbbbbbbbbbbbbbbbbbbbbbbbbbbbbbbbbbbbbbbbbbbbbbbbbbbbbbbbbbbbb").length
        ≤ 80 + 3) ∧
    truncateContent "balance is 5 ETH" = "balance is 5 ETH" :=
  ⟨(c3_truncation_law _).1 (by decide),
   (c3_truncation_law _).2.1 (by decide),
   (c3_truncation_law _).2.2.1 (by decide),
   (c3_truncation_law _).2.2.2 (by decide)⟩

/-- C4: the thought's history section is the header followed by exactly one
line per history record, for at most the first three records, indexed from 1
in caller-supplied order; the knowledge section behaves the same way. -/
theorem c4_bounding_law (hist kn : List JObj) :
    formatHistoryLines hist =
      "历史参考任务：" ::
        (List.enumFrom 1 (hist.take 3)).map (fun p => historyLine p.1 p.2) ∧
    formatKnowledgeLines kn =
      "知识库参考：" ::
        (List.enumFrom 1 (kn.take 3)).map (fun p => knowledgeLine p.1 p.2) := by
  constructor
  · rcases hist with _ | ⟨a, _ | ⟨b, _ | ⟨c, rest⟩⟩⟩ <;>
      simp [formatHistoryLines, historyGo]
  · rcases kn with _ | ⟨a, _ | ⟨b, _ | ⟨c, rest⟩⟩⟩ <;>
      simp [formatKnowledgeLines, knowledgeGo]

/-- C5 counterexample: the claim says a string `created_at` is used as-is,
but for the empty string the code renders the unknown-time marker `未知时间`
instead of the empty string (the falsy check `created_at or "未知时间"` fires
on `""`). -/
theorem c5_created_at_counterexample : ¬ tsOf (JVal.str "") = "" := by decide

/-- C5 (amended): a numeric `created_at` is rendered as the UTC epoch format
(`0` gives `1970-01-01 00:00:00 UTC`); a *non-empty* string is used as-is,
while the empty string yields the unknown marker, like an absent `created_at`
(`null`); booleans count as numeric (`isinstance(bool, int)` holds, so
`True`/`False` render as epochs 1/0); any other falsy value also yields the
unknown marker rather than an error. The last conjunct checks the spec's
history-record example end to end. -/
theorem c5_created_at_amended :
    (∀ n : Int, tsOf (.num n) = epochFormat n) ∧
    epochFormat 0 = "1970-01-01 00:00:00 UTC" ∧
    (∀ s : String, s ≠ "" → tsOf (.str s) = s) ∧
    tsOf (.str "") = "未知时间" ∧
    tsOf .null = "未知时间" ∧
    (∀ b : Bool, tsOf (.bool b) = epochFormat (if b then 1 else 0)) ∧
    (∀ v : JVal, (∀ n, v ≠ .num n) → (∀ b, v ≠ .bool b) → pyFalsy v = true →
      tsOf v = "未知时间") ∧
    historyLine 1 [("goal", .str "check balance"), ("reply", .str "balance is 5 ETH"),
        ("created_at", .num 0)] =
      "- [1] 1970-01-01 00:00:00 UTC 目标: check balance | 结果: balance is 5 ETH" := by
  refine ⟨fun n => rfl, by decide, fun s hs => ?_, by decide, by decide,
    fun b => rfl, fun v hn hb hf => ?_, by decide⟩
  · have : s.isEmpty = false := by
      cases hIE : s.isEmpty
      · rfl
      · exact absurd ((String.isEmpty_iff s).mp hIE) hs
    simp [tsOf, pyFalsy, pyStr, this]
  · cases v with
    | null => rfl
    | bool b => exact absurd rfl (hb b)
    | num n => exact absurd rfl (hn n)
    | str s => simp [tsOf, pyFalsy] at hf ⊢; simp [hf]
    | arr xs => simp [tsOf, pyFalsy] at hf ⊢; simp [hf]
    | obj fs => simp [tsOf, pyFalsy] at hf ⊢; simp [hf]

/-- Witness for C5 (amended): a non-empty string timestamp is used as-is, and
an empty array (falsy, neither numeric nor string) yields the unknown
marker. -/
theorem c5_created_at_amended_witness :
    tsOf (JVal.str "2024-01-01 08:00:00") = "2024-01-01 08:00:00" ∧
    tsOf (JVal.arr []) = "未知时间" := by
  obtain ⟨-, -, h3, -, -, -, h7, -⟩ := c5_created_at_amended
  exact ⟨h3 _ (by decide),
    h7 _ (fun n h => JVal.noConfusion h) (fun b h => JVal.noConfusion h) (by decide)⟩

/-- A `history`/`knowledge` value none of whose array elements is a record
normalizes to the empty list (a non-array value does so trivially). -/
theorem normalizeJList_eq_nil (v : JVal)
    (hv : ∀ xs, v = JVal.arr xs → ∀ x ∈ xs, isDict x = false) :
    normalizeJList v = [] := by
  cases v with
  | arr xs =>
      simp only [normalizeJList]
      rw [List.filterMap_eq_nil_iff]
      intro x hx
      have := hv xs rfl x hx
      cases x <;> simp_all [isDict]
  | null => rfl
  | bool b => rfl
  | num n => rfl
  | str s => rfl
  | obj fs => rfl

/-- C6: a request whose `history` value is not a list, or is a list with no
record (dict) elements, synthesizes exactly the same output as `history = []`;
likewise for `knowledge`. -/
theorem c6_malformed_optional_law (fields : JObj) (hv kv : JVal) (now : Int)
    (hh : ∀ xs, hv = JVal.arr xs → ∀ x ∈ xs, isDict x = false)
    (hk : ∀ xs, kv = JVal.arr xs → ∀ x ∈ xs, isDict x = false) :
    mainObj (("history", hv) :: ("knowledge", kv) :: fields) now =
      mainObj (("history", JVal.arr []) :: ("knowledge", JVal.arr []) :: fields) now := by
  have Hh : normalizeJList hv = [] := normalizeJList_eq_nil hv hh
  have Hk : normalizeJList kv = [] := normalizeJList_eq_nil kv hk
  have H0 : normalizeJList (JVal.arr []) = [] := rfl
  simp [mainObj, jGetD, Hh, Hk, H0]

/-- Witness for C6: `history = "not a list"` and `knowledge = [1, 2, "x"]`
behave exactly like empty lists. -/
theorem c6_malformed_optional_law_witness :
    mainObj [("history", JVal.str "not a list"),
        ("knowledge", JVal.arr [JVal.num 1, JVal.num 2, JVal.str "x"]),
        ("goal", JVal.str "hi")] 0 =
      mainObj [("history", JVal.arr []), ("knowledge", JVal.arr []),
        ("goal", JVal.str "hi")] 0 :=
  c6_malformed_optional_law [("goal", JVal.str "hi")] _ _ 0
    (fun _ h => nomatch h)
    (fun xs h => by cases h; decide)

/-- C7: an input that is not valid JSON is answered immediately with an error
response whose message differs from the empty-goal error, and never with a
(thought, reply) Result — no partial synthesis happens. -/
theorem c7_malformed_input_law (e : String) (now : Int) :
    mainBridge (.error e) now = some (.error ("输入不是有效的 JSON: " ++ e)) ∧
    "输入不是有效的 JSON: " ++ e ≠ "goal 字段不能为空" ∧
    ∀ t r, mainBridge (.error e) now ≠ some (.result t r) := by
  refine ⟨rfl, ?_, ?_⟩
  · intro hEq
    have h1 : ("输入不是有效的 JSON: " ++ e).data.head? = some '输' := by
      rw [String.data_append]
      rfl
    rw [hEq] at h1
    exact absurd h1 (by decide)
  · intro t r hEq
    simp [mainBridge] at hEq

/-- Witness for C7: a concrete decode-failure message. -/
theorem c7_malformed_input_law_witness :
    mainBridge (.error "Expecting value: line 1 column 1 (char 0)") 0 =
      some (.error "输入不是有效的 JSON: Expecting value: line 1 column 1 (char 0)") := by
  have h := (c7_malformed_input_law "Expecting value: line 1 column 1 (char 0)" 0).1
  rw [h]
  rfl

/-- C8: with the clock injected as an argument, `buildReply` is a pure
function of its arguments (its Lean type exhibits the referential
transparency the spec demands), so two invocations on identical inputs under
a frozen clock produce byte-identical (thought, reply) output. -/
theorem c8_frozen_clock_deterministic (g₁ g₂ a₁ a₂ d₁ d₂ : String)
    (h₁ h₂ k₁ k₂ : List JObj) (n₁ n₂ : Int)
    (hg : g₁ = g₂) (ha : a₁ = a₂) (hd : d₁ = d₂) (hh : h₁ = h₂) (hk : k₁ = k₂)
    (hn : n₁ = n₂) :
    buildReply g₁ a₁ d₁ h₁ k₁ n₁ = buildReply g₂ a₂ d₂ h₂ k₂ n₂ := by
  subst hg ha hd hh hk hn
  rfl

/-- Witness for C8: two invocations on a concrete identical input agree. -/
theorem c8_frozen_clock_deterministic_witness :
    buildReply "check balance" "eth_getBalance" "0xabc"
        [[("goal", JVal.str "prior")]] [] 1700000000 =
      buildReply "check balance" "eth_getBalance" "0xabc"
        [[("goal", JVal.str "prior")]] [] 1700000000 :=
  c8_frozen_clock_deterministic _ _ _ _ _ _ _ _ _ _ _ _
    rfl rfl rfl rfl rfl rfl

/-- C9: when `history` is non-empty the reply contains a clause referencing
the first record's trimmed goal, or the generic recent-task-experience phrase
when that goal trims to empty; when `knowledge` is non-empty the reply ends
with a clause referencing the first entry's trimmed title, or the generic
knowledge-base phrase when that title trims to empty. -/
theorem c9_first_entry_clauses (g a d : String) (h0 k0 : JObj)
    (hs ks hist kn : List JObj) (now : Int) :
    (pyStrip (pyStr (jGetD h0 "goal" (.str "近期任务"))) ≠ "" →
      ∃ p s, (buildReply g a d (h0 :: hs) kn now).2 =
        p ++ (" 同时我参考了历史任务『" ++ pyStrip (pyStr (jGetD h0 "goal" (.str "近期任务"))) ++
          "』的经验，以保证策略保持一致。") ++ s) ∧
    (pyStrip (pyStr (jGetD h0 "goal" (.str "近期任务"))) = "" →
      ∃ p s, (buildReply g a d (h0 :: hs) kn now).2 =
        p ++ " 我也结合了最近的任务经验，帮助你更快迭代。" ++ s) ∧
    (pyStrip (pyStr (jGetD k0 "title" (.str "知识库建议"))) ≠ "" →
      ∃ p, (buildReply g a d hist (k0 :: ks) now).2 =
        p ++ (" 我额外查阅了知识库中的『" ++ pyStrip (pyStr (jGetD k0 "title" (.str "知识库建议"))) ++
          "』，为你的下一步提供理论依据。")) ∧
    (pyStrip (pyStr (jGetD k0 "title" (.str "知识库建议"))) = "" →
      ∃ p, (buildReply g a d hist (k0 :: ks) now).2 =
        p ++ " 我也参考了知识库中的相关条目，以提升方案可靠性。") := by
  refine ⟨fun h => ⟨replyBase g a d, knowClause kn, ?_⟩,
    fun h => ⟨replyBase g a d, knowClause kn, ?_⟩,
    fun h => ⟨replyBase g a d ++ histClause hist, ?_⟩,
    fun h => ⟨replyBase g a d ++ histClause hist, ?_⟩⟩
  · simp only [buildReply, histClause, if_neg h]
  · simp only [buildReply, histClause, if_pos h]
  · simp only [buildReply, knowClause, if_neg h]
  · simp only [buildReply, knowClause, if_pos h]

/-- Witness for C9: all four clause shapes at concrete records — a history
record with goal `" prior task "`, one with a whitespace goal, a knowledge
entry titled `" gas 指南 "`, and one with a whitespace title. -/
theorem c9_first_entry_clauses_witness :
    (∃ p s, (buildReply "g" "" "" [[("goal", JVal.str " prior task ")]] [] 0).2 =
      p ++ (" 同时我参考了历史任务『" ++ "prior task" ++ "』的经验，以保证策略保持一致。") ++ s) ∧
    (∃ p s, (buildReply "g" "" "" [[("goal", JVal.str "   ")]] [] 0).2 =
      p ++ " 我也结合了最近的任务经验，帮助你更快迭代。" ++ s) ∧
    (∃ p, (buildReply "g" "" "" [] [[("title", JVal.str " gas 指南 ")]] 0).2 =
      p ++ (" 我额外查阅了知识库中的『" ++ "gas 指南" ++ "』，为你的下一步提供理论依据。")) ∧
    (∃ p, (buildReply "g" "" "" [] [[("title", JVal.str "   ")]] 0).2 =
      p ++ " 我也参考了知识库中的相关条目，以提升方案可靠性。") := by
  refine ⟨?_, ?_, ?_, ?_⟩
  · have h := (c9_first_entry_clauses "g" "" "" [("goal", JVal.str " prior task ")]
      [] [] [] [] [] 0).1 (by decide)
    exact h
  · exact (c9_first_entry_clauses "g" "" "" [("goal", JVal.str "   ")]
      [] [] [] [] [] 0).2.1 (by decide)
  · exact (c9_first_entry_clauses "g" "" "" [] [("title", JVal.str " gas 指南 ")]
      [] [] [] [] 0).2.2.1 (by decide)
  · exact (c9_first_entry_clauses "g" "" "" [] [("title", JVal.str "   ")]
      [] [] [] [] 0).2.2.2 (by decide)

/-- C10: the reply depends only on the goal, action, address, and the first
elements of the normalized history and knowledge lists (whose presence also
determines the lists' emptiness): inputs agreeing on `head?` of both lists
yield identical replies, whatever the later elements are. -/
theorem c10_reply_depends_on_heads (g a d : String) (now : Int)
    (h₁ h₂ k₁ k₂ : List JObj)
    (hh : h₁.head? = h₂.head?) (hk : k₁.head? = k₂.head?) :
    (buildReply g a d h₁ k₁ now).2 = (buildReply g a d h₂ k₂ now).2 := by
  have Hh : histClause h₁ = histClause h₂ := by
    cases h₁ <;> cases h₂ <;> simp_all [List.head?, histClause]
  have Hk : knowClause k₁ = knowClause k₂ := by
    cases k₁ <;> cases k₂ <;> simp_all [List.head?, knowClause]
  simp only [buildReply]
  rw [Hh, Hk]

/-- Witness for C10: appending a second history record and a second knowledge
entry leaves the reply unchanged. -/
theorem c10_reply_depends_on_heads_witness :
    (buildReply "g" "" "" [[("goal", JVal.str "first")]]
        [[("title", JVal.str "t")]] 0).2 =
      (buildReply "g" "" ""
        [[("goal", JVal.str "first")], [("goal", JVal.str "second")]]
        [[("title", JVal.str "t")], [("title", JVal.str "u")]] 0).2 :=
  c10_reply_depends_on_heads "g" "" "" 0 _ _ _ _ rfl rfl

end LlmBridge
